import Mathlib

/-!
Shallow embedding of the frame-compositing core in
Source/WebCore/platform/graphics/android/GLWebViewState.cpp.

Machine integers are modelled as Int (the quantities involved are far from
the 32-bit range in every claim), float quantities as ℚ with exact floor,
ceil and truncation at the places the code converts to int.  External
collaborators (TilesManager, ZoomManager, the shader, the transfer queue,
the two TiledPage objects) are modelled by an ordered event trace of the
calls issued to them, plus oracle inputs for the values they return.
Reference counting (SkSafeRef and SkSafeUnref) is ownership bookkeeping with
no observable effect on the modelled state and is not represented.
-/

/-- Axis-aligned integer rectangle: WebCore IntRect, stored as location plus
size exactly as in the source. -/
structure IntRect where
  x : Int
  y : Int
  width : Int
  height : Int
deriving DecidableEq

/-- Right edge of an IntRect, as IntRect.maxX in WebCore. -/
def IntRect.maxX (r : IntRect) : Int := r.x + r.width

/-- Bottom edge of an IntRect, as IntRect.maxY in WebCore. -/
def IntRect.maxY (r : IntRect) : Int := r.y + r.height

/-- Modelled from the spec: WebCore IntRect.isEmpty is not under src; the
spec describes the canonical empty rectangle as zero-sized, so a rectangle
is empty when either extent is not positive. -/
def IntRect.isEmpty (r : IntRect) : Bool := r.width ≤ 0 || r.height ≤ 0

/-- The all-zero rectangle: the canonical empty rectangle and the
full-screen invalidation sentinel of the spec. -/
def IntRect.zero : IntRect := ⟨0, 0, 0, 0⟩

/-- Modelled from the spec: WebCore IntRect.unite is not under src; the spec
says a merge extends the union to the smallest rectangle enclosing both,
adopting the other rectangle when the union is empty, and an empty argument
contributes nothing. -/
def IntRect.unite (r o : IntRect) : IntRect :=
  if o.isEmpty then r
  else if r.isEmpty then o
  else
    let l := min r.x o.x
    let t := min r.y o.y
    let rr := max r.maxX o.maxX
    let b := max r.maxY o.maxY
    ⟨l, t, rr - l, b - t⟩

/-- Modelled from the spec: WebCore IntRect.intersects is not under src;
two rectangles intersect when both are non-empty and they overlap with
positive area on both axes. -/
def IntRect.intersects (r o : IntRect) : Bool :=
  !r.isEmpty && !o.isEmpty &&
    r.x < o.maxX && o.x < r.maxX && r.y < o.maxY && o.y < r.maxY

/-- Modelled from the spec: WebCore IntRect.inflate is not under src; the
spec describes inflating by a fixed margin in every direction. -/
def IntRect.inflate (r : IntRect) (d : Int) : IntRect :=
  ⟨r.x - d, r.y - d, r.width + 2 * d, r.height + 2 * d⟩

/-- One rectangle contains another (used to state that a merge result is the
smallest enclosing rectangle). -/
def IntRect.contains (outer inner : IntRect) : Prop :=
  outer.x ≤ inner.x ∧ outer.y ≤ inner.y ∧
    inner.maxX ≤ outer.maxX ∧ inner.maxY ≤ outer.maxY

/-- Skia SkRect: edges stored as fLeft, fTop, fRight, fBottom; float fields
modelled as ℚ. -/
structure SkRect where
  left : ℚ
  top : ℚ
  right : ℚ
  bottom : ℚ
deriving DecidableEq

/-- SkRect.width as in Skia: right edge minus left edge. -/
def SkRect.width (r : SkRect) : ℚ := r.right - r.left

/-- SkRect.height as in Skia: bottom edge minus top edge. -/
def SkRect.height (r : SkRect) : ℚ := r.bottom - r.top

/-- Skia SkIRect: integer edges, used for the viewport tile bounds. -/
structure SkIRect where
  left : Int
  top : Int
  right : Int
  bottom : Int
deriving DecidableEq

/-- WebCore FloatRect: location plus size, float fields modelled as ℚ. -/
structure FloatRect where
  x : ℚ
  y : ℚ
  width : ℚ
  height : ℚ
deriving DecidableEq

/-- Modelled from the spec: FloatRect.inflate is not under src; inflation by
d moves both edges outward by d on each axis. -/
def FloatRect.inflate (r : FloatRect) (d : ℚ) : FloatRect :=
  ⟨r.x - d, r.y - d, r.width + 2 * d, r.height + 2 * d⟩

/-- C truncation toward zero, the conversion applied when a float is passed
to an int parameter (the IntRect constructor in drawGL). -/
def truncQ (q : ℚ) : Int := if 0 ≤ q then ⌊q⌋ else ⌈q⌉

/-- The IntRect built in drawGL from the float invalidation rectangle by
converting each field to int. -/
def IntRect.ofFloatRect (r : FloatRect) : IntRect :=
  ⟨truncQ r.x, truncQ r.y, truncQ r.width, truncQ r.height⟩

/-- Identity of one of the exactly two TiledPage instances (m_tiledPageA and
m_tiledPageB). -/
inductive PageId
  | A
  | B
deriving DecidableEq

/-- GLWebViewState.sibling: the other of the two tiled pages, a pure lookup
mirroring the conditional in the source. -/
def sibling (page : PageId) : PageId :=
  if page = PageId.A then PageId.B else PageId.A

/-- A BaseLayerAndroid content snapshot: pointer identity plus the content
dimensions read by baseContentWidth and baseContentHeight. -/
structure BaseLayerAndroid where
  id : Nat
  contentWidth : Int
  contentHeight : Int
deriving DecidableEq

/-- One call issued to an external collaborator, in program order.  Ordered
traces let the theorems speak about what is called, on which page, and in
which sequence. -/
inductive GLEvent
  | discardTextures (page : PageId)
  | invalidateRect (page : PageId) (r : IntRect) (pictureCount : Nat)
  | profilerNextInval (r : IntRect)
  | updateBaseTileSize (page : PageId)
  | setMaxTextureCount (n : Int)
  | zoomSwapNotify
  | layerSetExtraCall
  | scaleWarningLog
  | transferQueueUpdate
  | processCrash
deriving DecidableEq

/-- Externally fixed configuration: the TilesManager tile dimensions and the
TILE_PREFETCH_DISTANCE and TILE_PREFETCH_RATIO constants, all defined
outside src and therefore kept abstract here. -/
structure GLConfig where
  tileWidth : ℚ
  tileHeight : ℚ
  prefetchDistance : Int
  prefetchFactor : ℚ
deriving DecidableEq

/-- The mutable state of GLWebViewState relevant to the claims.  The SkRegion
m_invalidateRegion is modelled as the list of accumulated non-empty
rectangles: the region is their set union, and Skia only renormalizes that
union into disjoint rectangles, so every union-level observation (in
particular the bounding-box dirty union produced when the region is flushed)
is preserved by the list model.  zoomFutureScale is the ZoomManager future
scale read by setViewport. -/
structure GLWebViewState where
  baseLayer : Option BaseLayerAndroid
  currentBaseLayer : Option BaseLayerAndroid
  baseLayerUpdate : Bool
  invalidateRegion : List IntRect
  frameworkInval : IntRect
  frameworkLayersInval : IntRect
  currentPictureCounter : Nat
  usePageA : Bool
  displayRings : Bool
  lastInval : IntRect
  viewport : SkRect
  viewportTileBounds : SkIRect
  expandedTileBoundsX : Int
  expandedTileBoundsY : Int
  goingDown : Bool
  goingLeft : Bool
  zoomFutureScale : ℚ
deriving DecidableEq

namespace GLWebViewState

/-- GLWebViewState.frontPage: the page currently labelled front. -/
def frontPage (s : GLWebViewState) : PageId :=
  if s.usePageA then PageId.A else PageId.B

/-- GLWebViewState.backPage: the page currently labelled back. -/
def backPage (s : GLWebViewState) : PageId :=
  if s.usePageA then PageId.B else PageId.A

/-- GLWebViewState.swapPages: flip the front and back labels, notify the
zoom manager, then discard the textures of the page that is now the back
page (computed, as in the source, from the flipped flag). -/
def swapPages (s : GLWebViewState) : GLWebViewState × List GLEvent :=
  let s2 : GLWebViewState := { s with usePageA := !s.usePageA }
  let oldPage := if s2.usePageA then PageId.B else PageId.A
  (s2, [GLEvent.zoomSwapNotify, GLEvent.discardTextures oldPage])

/-- GLWebViewState.inval: when the base layer is unlocked, bump the picture
counter and, for a non-empty rectangle, invalidate the front page tiles and
merge the rectangle into the framework dirty union; when locked, defer the
rectangle into the pending region.  Every call forwards the rectangle to the
external profiler. -/
def inval (s : GLWebViewState) (rect : IntRect) : GLWebViewState × List GLEvent :=
  if s.baseLayerUpdate then
    let s2 : GLWebViewState := { s with currentPictureCounter := s.currentPictureCounter + 1 }
    if rect.isEmpty then
      (s2, [GLEvent.profilerNextInval rect])
    else
      let s3 : GLWebViewState :=
        { s2 with frameworkInval :=
            if s2.frameworkInval.isEmpty then rect else s2.frameworkInval.unite rect }
      (s3, [GLEvent.invalidateRect s2.frontPage rect s2.currentPictureCounter,
            GLEvent.profilerNextInval rect])
  else
    let s2 : GLWebViewState :=
      { s with invalidateRegion :=
          if rect.isEmpty then s.invalidateRegion else s.invalidateRegion ++ [rect] }
    (s2, [GLEvent.profilerNextInval rect])

/-- GLWebViewState.invalRegion: issue inval for every rectangle of a region,
in iteration order. -/
def invalRegion : GLWebViewState → List IntRect → GLWebViewState × List GLEvent
  | s, [] => (s, [])
  | s, r :: rs =>
    let p := inval s r
    let q := invalRegion p.1 rs
    (q.1, p.2 ++ q.2)

/-- GLWebViewState.setBaseLayer: discard both pages when the layer is null
or this is the picture after a first layout; on a first-layout picture also
re-enable base layer updates and clear the pending region; store the new
layer, promote it to current only when updates are enabled, drop the rings
display, and invalidate the supplied region.  The visual-indicator flag only
toggles external diagnostics and is omitted. -/
def setBaseLayer (s : GLWebViewState) (layer : Option BaseLayerAndroid)
    (invalRects : List IntRect) (isPictureAfterFirstLayout : Bool) :
    GLWebViewState × List GLEvent :=
  let e1 : List GLEvent :=
    if layer.isNone || isPictureAfterFirstLayout then
      [GLEvent.discardTextures PageId.A, GLEvent.discardTextures PageId.B]
    else []
  let s2 : GLWebViewState :=
    if isPictureAfterFirstLayout then
      { s with baseLayerUpdate := true, invalidateRegion := [] }
    else s
  let s3 : GLWebViewState := { s2 with baseLayer := layer }
  let s4 : GLWebViewState :=
    if s3.baseLayerUpdate then { s3 with currentBaseLayer := layer } else s3
  let s5 : GLWebViewState := { s4 with displayRings := false }
  let p := invalRegion s5 invalRects
  (p.1, e1 ++ p.2)

/-- GLWebViewState.unlockBaseLayerUpdate: a no-op when updates are already
enabled; otherwise re-enable updates, promote the stored layer to current,
flush the pending region through the live invalidation path, then clear the
pending region. -/
def unlockBaseLayerUpdate (s : GLWebViewState) : GLWebViewState × List GLEvent :=
  if s.baseLayerUpdate then (s, [])
  else
    let s2 : GLWebViewState :=
      { s with baseLayerUpdate := true, currentBaseLayer := s.baseLayer }
    let p := invalRegion s2 s2.invalidateRegion
    ({ p.1 with invalidateRegion := [] }, p.2)

/-- GLWebViewState.setExtra: rejected while the base layer is locked;
otherwise bind the extra picture to the layer and, unless the rectangle is
unchanged and same-rectangle redraw is not allowed, invalidate the new and
previous rectangles (each only when non-empty), record the rectangle and
drop the rings display. -/
def setExtra (s : GLWebViewState) (rect : IntRect) (allowSame : Bool) :
    GLWebViewState × List GLEvent :=
  if s.baseLayerUpdate = false then (s, [])
  else if allowSame = false ∧ s.lastInval = rect then
    (s, [GLEvent.layerSetExtraCall])
  else
    let p := if rect.isEmpty then (s, ([] : List GLEvent)) else inval s rect
    let q :=
      if p.1.lastInval.isEmpty then (p.1, ([] : List GLEvent))
      else inval p.1 p.1.lastInval
    ({ q.1 with lastInval := rect, displayRings := false },
     GLEvent.layerSetExtraCall :: (p.2 ++ q.2))

/-- GLWebViewState.resetFrameworkInval: zero out the framework dirty union. -/
def resetFrameworkInval (s : GLWebViewState) : GLWebViewState :=
  { s with frameworkInval := IntRect.zero }

/-- GLWebViewState.addDirtyArea: ignore empty rectangles; otherwise inflate
by 8 and merge into the layers dirty union, adopting the inflated rectangle
when the union is empty. -/
def addDirtyArea (s : GLWebViewState) (rect : IntRect) : GLWebViewState :=
  if rect.isEmpty then s
  else
    let inflatedRect := rect.inflate 8
    if s.frameworkLayersInval.isEmpty then
      { s with frameworkLayersInval := inflatedRect }
    else
      { s with frameworkLayersInval := s.frameworkLayersInval.unite inflatedRect }

/-- GLWebViewState.resetLayersDirtyArea: zero out the layers dirty union. -/
def resetLayersDirtyArea (s : GLWebViewState) : GLWebViewState :=
  { s with frameworkLayersInval := IntRect.zero }

/-- The per-axis maximum visible tile count computed in setViewport:
ceil of (length minus one) times scale over tile size, plus one. -/
def viewMaxTiles (len invTileContent : ℚ) : Int :=
  ⌈(len - 1) * invTileContent⌉ + 1

/-- GLWebViewState.setViewport: a no-op when both the viewport rectangle and
the zoom-manager future scale are unchanged; otherwise record the scroll
direction flags, the viewport, and the tile bounds (floor of the top-left
and ceil of the bottom-right edge in tile units), push the maximum texture
count to the tiles manager and retile both pages. -/
def setViewport (cfg : GLConfig) (s : GLWebViewState) (viewport : SkRect)
    (scale : ℚ) : GLWebViewState × List GLEvent :=
  if s.viewport = viewport ∧ s.zoomFutureScale = scale then (s, [])
  else
    let invTileContentWidth := scale / cfg.tileWidth
    let invTileContentHeight := scale / cfg.tileHeight
    let bounds : SkIRect :=
      ⟨⌊viewport.left * invTileContentWidth⌋,
       ⌊viewport.top * invTileContentHeight⌋,
       ⌈viewport.right * invTileContentWidth⌉,
       ⌈viewport.bottom * invTileContentHeight⌉⟩
    let viewMaxTileX := viewMaxTiles viewport.width invTileContentWidth
    let viewMaxTileY := viewMaxTiles viewport.height invTileContentHeight
    let maxTextureCount :=
      (viewMaxTileX + cfg.prefetchDistance * 2) *
        (viewMaxTileY + cfg.prefetchDistance * 2) * 2
    let s2 : GLWebViewState :=
      { s with
        goingDown := decide (s.viewport.top - viewport.top ≤ 0)
        goingLeft := decide (s.viewport.left - viewport.left ≥ 0)
        viewport := viewport
        viewportTileBounds := bounds }
    (s2, [GLEvent.setMaxTextureCount maxTextureCount,
          GLEvent.updateBaseTileSize PageId.A,
          GLEvent.updateBaseTileSize PageId.B])

end GLWebViewState

/-- Values returned by the external collaborators during one drawGL frame:
what the delegated base layer draw reports, the one-shot inverted-screen
transition flag, the dirty areas the layer tree adds during the draw, the
shader mapping from content to inverse screen coordinates, and the future
scale after processNewScale. -/
structure FrameOracle where
  drawRet : Bool
  invertedScreenSwitch : Bool
  layerDirtyAreas : List IntRect
  rectInInvScreenCoord : IntRect → FloatRect
  newFutureScale : ℚ

/-- Outcome of one drawGL call: nothing drawn because no current content,
process aborted by the fatal scale check, or a completed frame with the
returned dirtiness flag and the out-invalidation rectangle (none when the
code never writes it). -/
inductive DrawOutcome
  | noContent
  | crashed
  | frame (ret : Bool) (invalOut : Option IntRect)
deriving DecidableEq

/-- The out-invalidation computation at the end of drawGL when the frame
reported dirtiness: full-screen sentinel when the framework dirty union is
empty or an inverted-screen transition occurred; otherwise the union is
mapped to inverse screen coordinates, inflated by 1, truncated to ints,
united with the layers dirty union, and replaced by the sentinel when it
does not intersect the frame rectangle. -/
def computeInvalRect (invertedSwitch : Bool)
    (frameworkInval frameworkLayersInval rect : IntRect)
    (mapToScreen : IntRect → FloatRect) : IntRect :=
  let fullScreenInval := frameworkInval.isEmpty || invertedSwitch
  if fullScreenInval then IntRect.zero
  else
    let screenInval := (mapToScreen frameworkInval).inflate 1
    let invalRect := (IntRect.ofFloatRect screenInval).unite frameworkLayersInval
    if invalRect.intersects rect then invalRect else IntRect.zero

namespace GLWebViewState

/-- GLWebViewState.drawGL for one frame: return early when there is no
current content; compute the asymmetric prefetch expansion; reset the layers
dirty union; warn when the scale is implausible, flush the transfer queue,
and abort if the scale is still implausible; run setupDrawing (setViewport
plus the zoom-manager scale update); accumulate the dirty areas the
delegated draw adds; and compute the out-invalidation from the draw result,
the inverted-screen transition, the framework dirty unions and the frame
rectangle.  Pure GPU work (clear, shader setup, texture gathering, the
composited-root texture transfer, ring drawing) has no modelled state and is
elided. -/
def drawGL (cfg : GLConfig) (s : GLWebViewState) (rect : IntRect)
    (viewport : SkRect) (scale : ℚ) (o : FrameOracle) :
    GLWebViewState × DrawOutcome × List GLEvent :=
  match s.currentBaseLayer with
  | none => (s, DrawOutcome.noContent, [])
  | some baseLayer =>
    let viewWidth := (viewport.right - viewport.left) * cfg.prefetchFactor
    let viewHeight := (viewport.bottom - viewport.top) * cfg.prefetchFactor
    let useHorzPrefetch := viewWidth < (baseLayer.contentWidth : ℚ)
    let useVertPrefetch := viewHeight < (baseLayer.contentHeight : ℚ)
    let s1 : GLWebViewState :=
      { s with
        expandedTileBoundsX := if useHorzPrefetch then cfg.prefetchDistance else 0
        expandedTileBoundsY := if useVertPrefetch then cfg.prefetchDistance else 0 }
    let s2 := resetLayersDirtyArea s1
    if scale < 1 / 10 ∨ 10 < scale then
      (s2, DrawOutcome.crashed,
       [GLEvent.scaleWarningLog, GLEvent.transferQueueUpdate,
        GLEvent.scaleWarningLog, GLEvent.processCrash])
    else
      let p := setViewport cfg s2 viewport scale
      let s3 : GLWebViewState := { p.1 with zoomFutureScale := o.newFutureScale }
      let s4 := o.layerDirtyAreas.foldl addDirtyArea s3
      let ret := o.drawRet || o.invertedScreenSwitch
      let evts := GLEvent.transferQueueUpdate :: p.2
      if ret then
        (s4, DrawOutcome.frame true (some (computeInvalRect o.invertedScreenSwitch
          s4.frameworkInval s4.frameworkLayersInval rect o.rectInInvScreenCoord)), evts)
      else
        (resetFrameworkInval s4, DrawOutcome.frame false none, evts)

end GLWebViewState

/-- The framework dirty-union merge step performed by inval when the base
layer is unlocked: empty rectangles are skipped, a non-empty rectangle is
adopted when the union is empty and united into it otherwise. -/
def mergeBaseRect (u r : IntRect) : IntRect :=
  if r.isEmpty then u else if u.isEmpty then r else u.unite r

/-- The layers dirty-union merge step performed by addDirtyArea: empty
rectangles are skipped, a non-empty rectangle is inflated by 8 and then
adopted or united. -/
def layerMergeRect (u r : IntRect) : IntRect :=
  if r.isEmpty then u
  else if u.isEmpty then r.inflate 8
  else u.unite (r.inflate 8)

/-- The smallest axis-aligned rectangle enclosing two rectangles, written
with explicit edge minima and maxima. -/
def enclosingRect (a b : IntRect) : IntRect :=
  ⟨min a.x b.x, min a.y b.y,
   max a.maxX b.maxX - min a.x b.x,
   max a.maxY b.maxY - min a.y b.y⟩

/-- The out-invalidation rectangle exactly as claim C1 words it: sentinel
when the base dirty union is empty, otherwise the union mapped to screen
coordinates, inflated by 1, united with the layers dirty region, replaced by
the sentinel when it does not intersect the frame rectangle. -/
def claimC1Inval (baseDirty layersDirty frameRect : IntRect)
    (mapToScreen : IntRect → FloatRect) : IntRect :=
  if baseDirty.isEmpty then IntRect.zero
  else
    let screenRect :=
      (IntRect.ofFloatRect ((mapToScreen baseDirty).inflate 1)).unite layersDirty
    if screenRect.intersects frameRect then screenRect else IntRect.zero

/-- The amended C1 out-invalidation: as the claim words it, except that an
inverted-screen-mode transition forces the sentinel regardless of the base
dirty union. -/
def amendedC1Inval (invertedSwitch : Bool) (baseDirty layersDirty frameRect : IntRect)
    (mapToScreen : IntRect → FloatRect) : IntRect :=
  if invertedSwitch then IntRect.zero
  else claimC1Inval baseDirty layersDirty frameRect mapToScreen

/-- Apply a sequence of setBaseLayer calls (layer, invalidation rectangles),
all without the first-layout flag, threading the state. -/
def setBaseLayerSeq :
    GLWebViewState → List (Option BaseLayerAndroid × List IntRect) →
      GLWebViewState × List GLEvent
  | s, [] => (s, [])
  | s, u :: us =>
    let p := GLWebViewState.setBaseLayer s u.1 u.2 false
    let q := setBaseLayerSeq p.1 us
    (q.1, p.2 ++ q.2)

/-- The non-empty invalidation rectangles accumulated into the pending
region by a sequence of locked setBaseLayer calls, in order. -/
def lockedPendingRects :
    List (Option BaseLayerAndroid × List IntRect) → List IntRect
  | [] => []
  | u :: us => u.2.filter (fun r => !r.isEmpty) ++ lockedPendingRects us

/-- The last layer supplied by a sequence of updates, defaulting to the
given layer when the sequence is empty. -/
def lastLayer (d : Option BaseLayerAndroid) :
    List (Option BaseLayerAndroid × List IntRect) → Option BaseLayerAndroid
  | [] => d
  | u :: us => lastLayer u.1 us

/-- A concrete fully-populated state used by witnesses and counterexamples:
updates unlocked, both dirty unions empty, content present. -/
def sampleState : GLWebViewState where
  baseLayer := some ⟨1, 1000, 800⟩
  currentBaseLayer := some ⟨1, 1000, 800⟩
  baseLayerUpdate := true
  invalidateRegion := []
  frameworkInval := IntRect.zero
  frameworkLayersInval := IntRect.zero
  currentPictureCounter := 0
  usePageA := true
  displayRings := false
  lastInval := IntRect.zero
  viewport := ⟨0, 0, 50, 50⟩
  viewportTileBounds := ⟨0, 0, 0, 0⟩
  expandedTileBoundsX := 0
  expandedTileBoundsY := 0
  goingDown := true
  goingLeft := false
  zoomFutureScale := 1

/-- A concrete frame oracle: quiet draw, no inverted-screen transition, no
layer dirty areas, identity content-to-screen mapping. -/
def sampleOracle : FrameOracle where
  drawRet := false
  invertedScreenSwitch := false
  layerDirtyAreas := []
  rectInInvScreenCoord := fun r =>
    ⟨(r.x : ℚ), (r.y : ℚ), (r.width : ℚ), (r.height : ℚ)⟩
  newFutureScale := 1

/-- A concrete configuration: 256 by 256 tiles, prefetch distance 1,
prefetch area factor 2. -/
def cfg0 : GLConfig := ⟨256, 256, 1, 2⟩

/-- Sample state with the base layer locked and one pending rectangle. -/
def lockedState : GLWebViewState :=
  { sampleState with baseLayerUpdate := false, invalidateRegion := [⟨0, 0, 5, 5⟩] }

/-- Sample state with a non-empty base-content dirty union. -/
def c1State : GLWebViewState := { sampleState with frameworkInval := ⟨10, 10, 20, 20⟩ }

/-- Sample oracle reporting an inverted-screen-mode transition. -/
def c1Oracle : FrameOracle := { sampleOracle with invertedScreenSwitch := true }

open GLWebViewState

/-- Unlocked inval bumps the picture counter and merges the rectangle into
the framework dirty union; nothing else changes. -/
theorem inval_unlocked_fields (s : GLWebViewState) (r : IntRect)
    (h : s.baseLayerUpdate = true) :
    (inval s r).1 = { s with
      currentPictureCounter := s.currentPictureCounter + 1,
      frameworkInval := mergeBaseRect s.frameworkInval r } := by
  by_cases hr : r.isEmpty <;> simp [inval, h, mergeBaseRect, hr]

/-- Locked inval only appends the rectangle (when non-empty) to the pending
region. -/
theorem inval_locked_fields (s : GLWebViewState) (r : IntRect)
    (h : s.baseLayerUpdate = false) :
    (inval s r).1 = { s with invalidateRegion :=
        s.invalidateRegion ++ if r.isEmpty then [] else [r] } := by
  by_cases hr : r.isEmpty <;> simp [inval, h, hr]

/-- Unlocked invalRegion folds the merge over the rectangles and advances
the counter by their number. -/
theorem invalRegion_unlocked_fields (rs : List IntRect) :
    ∀ s : GLWebViewState, s.baseLayerUpdate = true →
      (invalRegion s rs).1 = { s with
        currentPictureCounter := s.currentPictureCounter + rs.length,
        frameworkInval := rs.foldl mergeBaseRect s.frameworkInval } := by
  induction rs with
  | nil => intro s h; simp [invalRegion]
  | cons r rs ih =>
    intro s h
    have h1 : (invalRegion s (r :: rs)).1 = (invalRegion (inval s r).1 rs).1 := rfl
    rw [h1, inval_unlocked_fields s r h, ih _ (by simp [h])]
    have h2 : s.currentPictureCounter + 1 + rs.length =
        s.currentPictureCounter + (r :: rs).length := by
      simp [List.length_cons]; omega
    simp [h2]

/-- Locked invalRegion appends exactly the non-empty rectangles to the
pending region. -/
theorem invalRegion_locked_fields (rs : List IntRect) :
    ∀ s : GLWebViewState, s.baseLayerUpdate = false →
      (invalRegion s rs).1 = { s with invalidateRegion :=
          s.invalidateRegion ++ rs.filter (fun r => !r.isEmpty) } := by
  induction rs with
  | nil => intro s h; simp [invalRegion]
  | cons r rs ih =>
    intro s h
    have h1 : (invalRegion s (r :: rs)).1 = (invalRegion (inval s r).1 rs).1 := rfl
    rw [h1, inval_locked_fields s r h, ih _ (by simp [h])]
    by_cases hr : r.isEmpty <;> simp [hr, List.filter_cons]

/-- C6: swapPages flips the front and back assignment and only then evicts
exactly one page, the page that is the back page after the flip (which is
the pre-swap front page); the set of pages is untouched, only the label flag
changes. -/
theorem swapPages_flips_then_evicts_back (s : GLWebViewState) :
    (swapPages s).1.usePageA = !s.usePageA ∧
    (swapPages s).2 = [GLEvent.zoomSwapNotify,
      GLEvent.discardTextures (swapPages s).1.backPage] ∧
    (swapPages s).1.backPage = s.frontPage ∧
    (swapPages s).1.frontPage = s.backPage ∧
    { (swapPages s).1 with usePageA := s.usePageA } = s := by
  refine ⟨?_, ?_, ?_, ?_, rfl⟩ <;>
    cases hu : s.usePageA <;> simp [swapPages, frontPage, backPage, hu]

/-- C10: the front and back accessors always return distinct pages, sibling
maps front to back, sibling is an involution, and swapPages only exchanges
the two labels. -/
theorem pages_double_buffer_invariant (s : GLWebViewState) (p : PageId) :
    s.frontPage ≠ s.backPage ∧
    sibling s.frontPage = s.backPage ∧
    sibling (sibling p) = p ∧
    (swapPages s).1.frontPage = s.backPage ∧
    (swapPages s).1.backPage = s.frontPage := by
  cases hu : s.usePageA <;> cases p <;>
    simp [frontPage, backPage, sibling, swapPages, hu]

/-- C9: setViewport with the recorded viewport rectangle and the current
future scale is a no-op: the state (tile bounds, direction flags, viewport)
is returned unchanged and no external call (texture budget, page retiling)
is made. -/
theorem setViewport_unchanged_noop (cfg : GLConfig) (s : GLWebViewState)
    (viewport : SkRect) (scale : ℚ)
    (hrect : s.viewport = viewport) (hscale : s.zoomFutureScale = scale) :
    setViewport cfg s viewport scale = (s, []) := by
  simp [setViewport, hrect, hscale]

/-- Witness for C9 at a concrete state. -/
theorem setViewport_unchanged_noop_witness :
    setViewport cfg0 sampleState ⟨0, 0, 50, 50⟩ 1 = (sampleState, []) :=
  setViewport_unchanged_noop cfg0 sampleState ⟨0, 0, 50, 50⟩ 1 rfl rfl

/-- Uniting two non-empty rectangles gives the smallest enclosing
rectangle. -/
theorem unite_nonempty (a b : IntRect) (ha : a.isEmpty = false)
    (hb : b.isEmpty = false) : a.unite b = enclosingRect a b := by
  simp [IntRect.unite, ha, hb, enclosingRect]

/-- The enclosing rectangle of two non-empty rectangles is non-empty. -/
theorem enclosingRect_nonempty (a b : IntRect) (ha : a.isEmpty = false)
    (hb : b.isEmpty = false) : (enclosingRect a b).isEmpty = false := by
  simp only [IntRect.isEmpty, Bool.or_eq_false_iff, decide_eq_false_iff_not,
    enclosingRect, IntRect.maxX, IntRect.maxY] at *
  omega

/-- The enclosing rectangle is symmetric in its arguments. -/
theorem enclosingRect_comm (a b : IntRect) :
    enclosingRect a b = enclosingRect b a := by
  simp only [enclosingRect, IntRect.mk.injEq, IntRect.maxX, IntRect.maxY]
  refine ⟨?_, ?_, ?_, ?_⟩ <;> omega

/-- Enclosing three rectangles does not depend on the order of the last
two. -/
theorem enclosingRect_right_comm (f a b : IntRect) :
    enclosingRect (enclosingRect f a) b = enclosingRect (enclosingRect f b) a := by
  simp only [enclosingRect, IntRect.mk.injEq, IntRect.maxX, IntRect.maxY]
  refine ⟨?_, ?_, ?_, ?_⟩ <;> omega

/-- Enclosing three rectangles does not depend on which of two rectangles
is folded in first. -/
theorem enclosingRect_left_comm (f a b : IntRect) :
    enclosingRect b (enclosingRect f a) = enclosingRect a (enclosingRect f b) := by
  simp only [enclosingRect, IntRect.mk.injEq, IntRect.maxX, IntRect.maxY]
  refine ⟨?_, ?_, ?_, ?_⟩ <;> omega

/-- The framework dirty-union merge is order-independent for two
rectangles. -/
theorem mergeBaseRect_comm (f r1 r2 : IntRect) :
    mergeBaseRect (mergeBaseRect f r1) r2 = mergeBaseRect (mergeBaseRect f r2) r1 := by
  by_cases h1 : r1.isEmpty <;> by_cases h2 : r2.isEmpty <;> by_cases hf : f.isEmpty <;>
    simp_all [mergeBaseRect, unite_nonempty, enclosingRect_nonempty,
      enclosingRect_comm, enclosingRect_right_comm, enclosingRect_left_comm]

/-- C8 counterexample: issuing an inval with the empty rectangle (1,2,0,0)
on an empty base dirty union leaves the union at the canonical zero
rectangle, which is not that rectangle — merging R into an empty union does
not always yield exactly R. -/
theorem inval_empty_rect_counterexample :
    (inval sampleState ⟨1, 2, 0, 0⟩).1.frameworkInval = IntRect.zero ∧
    (⟨1, 2, 0, 0⟩ : IntRect) ≠ IntRect.zero := by
  constructor
  · rw [inval_unlocked_fields sampleState ⟨1, 2, 0, 0⟩ rfl]
    simp [mergeBaseRect, IntRect.isEmpty, sampleState]
  · simp [IntRect.zero]

/-- C8 amended: on the unlocked invalidation path, an empty rectangle is
skipped; merging a non-empty rectangle into an empty union yields exactly
that rectangle; merging a second non-empty rectangle yields the smallest
axis-aligned rectangle enclosing both (it contains both and is contained in
every rectangle containing both); and the union after merging two
rectangles does not depend on the merge order. -/
theorem inval_merge_properties (s : GLWebViewState) (r1 r2 : IntRect)
    (hu : s.baseLayerUpdate = true) :
    (r1.isEmpty = true → (inval s r1).1.frameworkInval = s.frameworkInval) ∧
    (r1.isEmpty = false → s.frameworkInval.isEmpty = true →
      (inval s r1).1.frameworkInval = r1) ∧
    (r1.isEmpty = false → r2.isEmpty = false → s.frameworkInval.isEmpty = true →
      (inval (inval s r1).1 r2).1.frameworkInval = enclosingRect r1 r2 ∧
      (enclosingRect r1 r2).contains r1 ∧ (enclosingRect r1 r2).contains r2 ∧
      ∀ c : IntRect, c.contains r1 → c.contains r2 → c.contains (enclosingRect r1 r2)) ∧
    (inval (inval s r1).1 r2).1.frameworkInval =
      (inval (inval s r2).1 r1).1.frameworkInval := by
  have hr1 : ∀ r : IntRect, (inval s r).1.baseLayerUpdate = true := by
    intro r; rw [inval_unlocked_fields s r hu]; exact hu
  have key : ∀ ra rb : IntRect, (inval (inval s ra).1 rb).1.frameworkInval =
      mergeBaseRect (mergeBaseRect s.frameworkInval ra) rb := by
    intro ra rb
    rw [inval_unlocked_fields _ rb (hr1 ra), inval_unlocked_fields s ra hu]
  refine ⟨?_, ?_, ?_, ?_⟩
  · intro h1; rw [inval_unlocked_fields s r1 hu]; simp [mergeBaseRect, h1]
  · intro h1 hf; rw [inval_unlocked_fields s r1 hu]; simp [mergeBaseRect, h1, hf]
  · intro h1 h2 hf
    refine ⟨?_, ?_, ?_, ?_⟩
    · rw [key]
      simp [mergeBaseRect, h1, h2, hf, unite_nonempty]
    · simp only [IntRect.contains, enclosingRect, IntRect.maxX, IntRect.maxY]
      omega
    · simp only [IntRect.contains, enclosingRect, IntRect.maxX, IntRect.maxY]
      omega
    · intro c hc1 hc2
      simp only [IntRect.contains, enclosingRect, IntRect.maxX, IntRect.maxY] at hc1 hc2 ⊢
      omega
  · rw [key, key]; exact mergeBaseRect_comm s.frameworkInval r1 r2

/-- Witness for the amended C8 at concrete rectangles. -/
theorem inval_merge_properties_witness :
    (inval (inval sampleState ⟨0, 0, 2, 2⟩).1 ⟨5, 5, 1, 1⟩).1.frameworkInval =
      enclosingRect ⟨0, 0, 2, 2⟩ ⟨5, 5, 1, 1⟩ :=
  ((inval_merge_properties sampleState ⟨0, 0, 2, 2⟩ ⟨5, 5, 1, 1⟩ rfl).2.2.1
    rfl rfl rfl).1

/-- C7: setExtra while the gate is locked is rejected as a no-op; while
unlocked, an unchanged rectangle with same-rectangle redraw not allowed
issues no invalidation and changes no state (only the external extra
binding happens); otherwise the new rectangle and the previous rectangle
are each merged into the dirty union when non-empty, the rectangle is
recorded, and the rings display is cleared. -/
theorem setExtra_gate_and_diff (s : GLWebViewState) (rect : IntRect) (allowSame : Bool) :
    (s.baseLayerUpdate = false → setExtra s rect allowSame = (s, [])) ∧
    (s.baseLayerUpdate = true → allowSame = false → s.lastInval = rect →
      (setExtra s rect allowSame).1 = s ∧
      (setExtra s rect allowSame).2 = [GLEvent.layerSetExtraCall]) ∧
    (s.baseLayerUpdate = true → ¬ (allowSame = false ∧ s.lastInval = rect) →
      (setExtra s rect allowSame).1.frameworkInval =
        mergeBaseRect (mergeBaseRect s.frameworkInval rect) s.lastInval ∧
      (setExtra s rect allowSame).1.displayRings = false ∧
      (setExtra s rect allowSame).1.lastInval = rect) := by
  refine ⟨?_, ?_, ?_⟩
  · intro h; simp [setExtra, h]
  · intro h ha hl; simp [setExtra, h, ha, hl]
  · intro h hno
    simp only [setExtra]
    rw [if_neg (by simp [h]), if_neg hno]
    by_cases hr : rect.isEmpty <;> by_cases hl : s.lastInval.isEmpty <;>
      simp_all [inval, mergeBaseRect]

/-- Witness for C7 at a concrete state: an unchanged extras rectangle with
same-rectangle redraw not allowed leaves the state unchanged and issues no
invalidation. -/
theorem setExtra_gate_and_diff_witness :
    (setExtra sampleState IntRect.zero false).1 = sampleState ∧
    (setExtra sampleState IntRect.zero false).2 = [GLEvent.layerSetExtraCall] :=
  (setExtra_gate_and_diff sampleState IntRect.zero false).2.1 rfl rfl rfl

/-- A locked setBaseLayer call stores the layer, drops the rings display and
appends the non-empty invalidation rectangles to the pending region; the
current layer, the lock flag and the framework dirty union are untouched. -/
theorem setBaseLayer_locked_fields (s : GLWebViewState)
    (layer : Option BaseLayerAndroid) (rs : List IntRect)
    (h : s.baseLayerUpdate = false) :
    (setBaseLayer s layer rs false).1 = { s with
      baseLayer := layer,
      displayRings := false,
      invalidateRegion := s.invalidateRegion ++ rs.filter (fun r => !r.isEmpty) } := by
  simp [setBaseLayer, invalRegion_locked_fields, h]

/-- A sequence of locked setBaseLayer calls keeps the gate locked and the
current layer fixed, stores the last supplied layer, accumulates exactly the
non-empty rectangles into the pending region, and clears the rings display
when the sequence is non-empty. -/
theorem setBaseLayerSeq_locked_fields
    (us : List (Option BaseLayerAndroid × List IntRect)) :
    ∀ s : GLWebViewState, s.baseLayerUpdate = false →
      (setBaseLayerSeq s us).1 = { s with
        baseLayer := lastLayer s.baseLayer us,
        displayRings := if us.isEmpty then s.displayRings else false,
        invalidateRegion := s.invalidateRegion ++ lockedPendingRects us } := by
  induction us with
  | nil => intro s h; simp [setBaseLayerSeq, lastLayer, lockedPendingRects]
  | cons u us ih =>
    intro s h
    have h1 : (setBaseLayerSeq s (u :: us)).1 =
        (setBaseLayerSeq (setBaseLayer s u.1 u.2 false).1 us).1 := rfl
    rw [h1, setBaseLayer_locked_fields s u.1 u.2 h, ih _ (by simp [h])]
    by_cases he : us.isEmpty <;>
      simp [he, lastLayer, lockedPendingRects, List.append_assoc]

/-- The last supplied layer of a sequence ending in u is the layer of u. -/
theorem lastLayer_append_single
    (front : List (Option BaseLayerAndroid × List IntRect))
    (u : Option BaseLayerAndroid × List IntRect) :
    ∀ d, lastLayer d (front ++ [u]) = u.1 := by
  induction front with
  | nil => intro d; simp [lastLayer]
  | cons v front ih => intro d; simpa [lastLayer] using ih v.1

/-- Unlocking a locked state promotes the stored layer to current, folds the
pending rectangles into the framework dirty union through the live path, and
clears the pending region. -/
theorem unlockBaseLayerUpdate_locked (s : GLWebViewState)
    (h : s.baseLayerUpdate = false) :
    (unlockBaseLayerUpdate s).1 = { s with
      baseLayerUpdate := true,
      currentBaseLayer := s.baseLayer,
      currentPictureCounter := s.currentPictureCounter + s.invalidateRegion.length,
      frameworkInval := s.invalidateRegion.foldl mergeBaseRect s.frameworkInval,
      invalidateRegion := [] } := by
  simp only [unlockBaseLayerUpdate, h, Bool.false_eq_true, if_false]
  rw [invalRegion_unlocked_fields _ _ (by simp)]

/-- C2: while the gate is locked, any sequence of setBaseLayer calls leaves
the current layer and the lock untouched and records only the latest layer;
the following unlock promotes that latest layer to current, flushes exactly
the accumulated pending rectangles into the dirty union, and empties the
pending region; unlock on an unlocked state is a no-op. -/
theorem lockedUpdates_then_unlock (s : GLWebViewState)
    (front : List (Option BaseLayerAndroid × List IntRect))
    (u : Option BaseLayerAndroid × List IntRect)
    (hlock : s.baseLayerUpdate = false) :
    ((setBaseLayerSeq s (front ++ [u])).1.currentBaseLayer = s.currentBaseLayer) ∧
    ((setBaseLayerSeq s (front ++ [u])).1.baseLayerUpdate = false) ∧
    ((setBaseLayerSeq s (front ++ [u])).1.baseLayer = u.1) ∧
    ((unlockBaseLayerUpdate (setBaseLayerSeq s (front ++ [u])).1).1.currentBaseLayer = u.1) ∧
    ((unlockBaseLayerUpdate (setBaseLayerSeq s (front ++ [u])).1).1.baseLayerUpdate = true) ∧
    ((unlockBaseLayerUpdate (setBaseLayerSeq s (front ++ [u])).1).1.invalidateRegion = []) ∧
    ((unlockBaseLayerUpdate (setBaseLayerSeq s (front ++ [u])).1).1.frameworkInval =
      (s.invalidateRegion ++ lockedPendingRects (front ++ [u])).foldl mergeBaseRect
        s.frameworkInval) ∧
    (∀ t : GLWebViewState, t.baseLayerUpdate = true →
      unlockBaseLayerUpdate t = (t, [])) := by
  have hseq := setBaseLayerSeq_locked_fields (front ++ [u]) s hlock
  have hs1lock : (setBaseLayerSeq s (front ++ [u])).1.baseLayerUpdate = false := by
    rw [hseq]; exact hlock
  have hunlock := unlockBaseLayerUpdate_locked _ hs1lock
  refine ⟨?_, hs1lock, ?_, ?_, ?_, ?_, ?_, ?_⟩
  · rw [hseq]
  · rw [hseq]; simp [lastLayer_append_single]
  · rw [hunlock, hseq]; simp [lastLayer_append_single]
  · rw [hunlock]
  · rw [hunlock]
  · rw [hunlock, hseq]
  · intro t ht; simp [unlockBaseLayerUpdate, ht]

/-- Witness for C2 at a concrete locked state with two locked updates. -/
theorem lockedUpdates_then_unlock_witness :
    ((setBaseLayerSeq lockedState
        [(some ⟨2, 600, 600⟩, [⟨1, 1, 2, 2⟩]), (some ⟨3, 700, 700⟩, [⟨8, 8, 2, 2⟩])]).1.currentBaseLayer =
      lockedState.currentBaseLayer) ∧
    ((unlockBaseLayerUpdate (setBaseLayerSeq lockedState
        [(some ⟨2, 600, 600⟩, [⟨1, 1, 2, 2⟩]), (some ⟨3, 700, 700⟩, [⟨8, 8, 2, 2⟩])]).1).1.currentBaseLayer =
      some ⟨3, 700, 700⟩) ∧
    ((unlockBaseLayerUpdate (setBaseLayerSeq lockedState
        [(some ⟨2, 600, 600⟩, [⟨1, 1, 2, 2⟩]), (some ⟨3, 700, 700⟩, [⟨8, 8, 2, 2⟩])]).1).1.invalidateRegion =
      []) := by
  have h := lockedUpdates_then_unlock lockedState
    [(some ⟨2, 600, 600⟩, [⟨1, 1, 2, 2⟩])] (some ⟨3, 700, 700⟩, [⟨8, 8, 2, 2⟩]) rfl
  exact ⟨h.1, h.2.2.2.1, h.2.2.2.2.2.1⟩

/-- C3 counterexample: starting from a locked state, a setBaseLayer call
with the first-layout flag leaves the gate update-enabled (the unlocked
state, the one unlockBaseLayerUpdate establishes), not locked. -/
theorem setBaseLayer_firstLayout_unlocks_counterexample :
    ((setBaseLayer lockedState (some ⟨2, 600, 600⟩) [] true).1.baseLayerUpdate = true) ∧
    ¬ ((setBaseLayer lockedState (some ⟨2, 600, 600⟩) [] true).1.baseLayerUpdate = false) := by
  constructor
  · rfl
  · intro hcontra
    simp only [setBaseLayer, invalRegion] at hcontra
    simp at hcontra

/-- C3 amended: a setBaseLayer call with the first-layout flag transitions
the gate to UNLOCKED (update-enabled), makes both tile pages discard their
textures, resets the pending dirty region to empty, and clears the rings
display. -/
theorem setBaseLayer_firstLayout_amended (s : GLWebViewState)
    (layer : Option BaseLayerAndroid) (rs : List IntRect) :
    ((setBaseLayer s layer rs true).1.baseLayerUpdate = true) ∧
    (GLEvent.discardTextures PageId.A ∈ (setBaseLayer s layer rs true).2) ∧
    (GLEvent.discardTextures PageId.B ∈ (setBaseLayer s layer rs true).2) ∧
    ((setBaseLayer s layer rs true).1.invalidateRegion = []) ∧
    ((setBaseLayer s layer rs true).1.displayRings = false) := by
  simp [setBaseLayer, invalRegion_unlocked_fields]

/-- C4 counterexample: a setViewport call with a zero-width, zero-height
viewport at scale 1 computes per-axis tile counts of 1 (ceil of -1/256 plus
one), not 0, so the pushed budget is (1+2)*(1+2)*2 = 18 rather than the
(0+2)*(0+2)*2 = 8 a clamp-to-zero would give: the code performs no
clamping. -/
theorem setViewport_zero_size_counterexample :
    ((setViewport cfg0 sampleState ⟨0, 0, 0, 0⟩ 1).2 =
      [GLEvent.setMaxTextureCount 18, GLEvent.updateBaseTileSize PageId.A,
       GLEvent.updateBaseTileSize PageId.B]) ∧
    ((18 : Int) ≠ (0 + 1 * 2) * (0 + 1 * 2) * 2) := by
  constructor
  · have hc : (⌈-((1 : ℚ) / 256)⌉ : ℤ) = 0 := by norm_num
    norm_num [setViewport, viewMaxTiles, sampleState, cfg0, SkRect.width,
      SkRect.height, hc]
  · norm_num

/-- With a zero length and a positive scale at most the tile size, the
per-axis tile count lies between 0 and 1 (it is 1 unless the scale equals
the tile size); in particular it is not clamped to 0 but also cannot be
negative in that range. -/
theorem viewMaxTiles_zero_len (scale tile : ℚ) (htile : 0 < tile)
    (h0 : 0 < scale) (h1 : scale ≤ tile) :
    0 ≤ viewMaxTiles 0 (scale / tile) ∧ viewMaxTiles 0 (scale / tile) ≤ 1 := by
  unfold viewMaxTiles
  have hx : ((0 : ℚ) - 1) * (scale / tile) = -(scale / tile) := by ring
  rw [hx]
  have hpos : 0 < scale / tile := div_pos h0 htile
  have hle : scale / tile ≤ 1 := (div_le_one htile).mpr h1
  constructor
  · have hges : (-1 : ℚ) ≤ -(scale / tile) := by linarith
    have h2 : (-1 : ℤ) ≤ ⌈-(scale / tile)⌉ := by
      exact_mod_cast le_trans hges (Int.le_ceil _)
    omega
  · have h3 : ⌈-(scale / tile)⌉ ≤ 0 := Int.ceil_le.mpr (by push_cast; linarith)
    omega

/-- C4 amended: every non-no-op setViewport call pushes the budget
(tilesAcrossX + 2 prefetch) * (tilesAcrossY + 2 prefetch) * 2 where the
per-axis counts are ceil((length-1)*scale/tileSize)+1; a zero viewport
width or height gives a per-axis count between 0 and 1 when the scale is
positive and at most the tile size — no clamping to zero is performed. -/
theorem setViewport_budget (cfg : GLConfig) (s : GLWebViewState)
    (viewport : SkRect) (scale : ℚ)
    (hchange : ¬ (s.viewport = viewport ∧ s.zoomFutureScale = scale)) :
    ((setViewport cfg s viewport scale).2 =
      [GLEvent.setMaxTextureCount
        ((viewMaxTiles viewport.width (scale / cfg.tileWidth) +
            cfg.prefetchDistance * 2) *
          (viewMaxTiles viewport.height (scale / cfg.tileHeight) +
            cfg.prefetchDistance * 2) * 2),
       GLEvent.updateBaseTileSize PageId.A,
       GLEvent.updateBaseTileSize PageId.B]) ∧
    (viewport.width = 0 → 0 < cfg.tileWidth → 0 < scale → scale ≤ cfg.tileWidth →
      0 ≤ viewMaxTiles viewport.width (scale / cfg.tileWidth) ∧
      viewMaxTiles viewport.width (scale / cfg.tileWidth) ≤ 1) ∧
    (viewport.height = 0 → 0 < cfg.tileHeight → 0 < scale → scale ≤ cfg.tileHeight →
      0 ≤ viewMaxTiles viewport.height (scale / cfg.tileHeight) ∧
      viewMaxTiles viewport.height (scale / cfg.tileHeight) ≤ 1) := by
  refine ⟨?_, ?_, ?_⟩
  · simp only [setViewport, if_neg hchange]
  · intro hw htile h0 h1; rw [hw]; exact viewMaxTiles_zero_len scale cfg.tileWidth htile h0 h1
  · intro hh htile h0 h1; rw [hh]; exact viewMaxTiles_zero_len scale cfg.tileHeight htile h0 h1

/-- Witness for the amended C4 at a concrete zero-size viewport change. -/
theorem setViewport_budget_witness :
    (setViewport cfg0 sampleState ⟨0, 0, 0, 0⟩ 1).2 =
      [GLEvent.setMaxTextureCount
        ((viewMaxTiles (SkRect.width ⟨0, 0, 0, 0⟩) (1 / cfg0.tileWidth) +
            cfg0.prefetchDistance * 2) *
          (viewMaxTiles (SkRect.height ⟨0, 0, 0, 0⟩) (1 / cfg0.tileHeight) +
            cfg0.prefetchDistance * 2) * 2),
       GLEvent.updateBaseTileSize PageId.A,
       GLEvent.updateBaseTileSize PageId.B] :=
  (setViewport_budget cfg0 sampleState ⟨0, 0, 0, 0⟩ 1
    (by simp [sampleState])).1

/-- C5: with content present and an implausible scale (below 0.1 or above
10), the pre-upload check only logs a warning and execution continues into
the transfer-queue upload, after which the same condition logs again and
aborts the process; with an in-range scale drawGL never aborts. -/
theorem drawGL_scale_fatal_after_upload (cfg : GLConfig) (s : GLWebViewState)
    (rect : IntRect) (viewport : SkRect) (scale : ℚ) (o : FrameOracle) :
    (∀ b, s.currentBaseLayer = some b → (scale < 1 / 10 ∨ 10 < scale) →
      (drawGL cfg s rect viewport scale o).2.1 = DrawOutcome.crashed ∧
      (drawGL cfg s rect viewport scale o).2.2 =
        [GLEvent.scaleWarningLog, GLEvent.transferQueueUpdate,
         GLEvent.scaleWarningLog, GLEvent.processCrash]) ∧
    (¬ (scale < 1 / 10 ∨ 10 < scale) →
      (drawGL cfg s rect viewport scale o).2.1 ≠ DrawOutcome.crashed) := by
  constructor
  · intro b hb hscale
    simp only [drawGL, hb]
    rw [if_pos hscale]
    exact ⟨rfl, rfl⟩
  · intro hscale
    cases hb : s.currentBaseLayer with
    | none => simp [drawGL, hb]
    | some b =>
      simp only [drawGL, hb, if_neg hscale]
      split_ifs <;> simp

/-- Witness for C5: a frame drawn at scale 50 with content present
aborts. -/
theorem drawGL_scale_fatal_after_upload_witness :
    (drawGL cfg0 sampleState ⟨0, 0, 100, 100⟩ ⟨0, 0, 50, 50⟩ 50 sampleOracle).2.1 =
      DrawOutcome.crashed :=
  ((drawGL_scale_fatal_after_upload cfg0 sampleState ⟨0, 0, 100, 100⟩
      ⟨0, 0, 50, 50⟩ 50 sampleOracle).1 ⟨1, 1000, 800⟩ rfl (by norm_num)).1

/-- addDirtyArea only merges into the layers dirty union. -/
theorem addDirtyArea_fields (s : GLWebViewState) (r : IntRect) :
    addDirtyArea s r = { s with
      frameworkLayersInval := layerMergeRect s.frameworkLayersInval r } := by
  by_cases hr : r.isEmpty <;> by_cases hu : s.frameworkLayersInval.isEmpty <;>
    simp [addDirtyArea, layerMergeRect, hr, hu]

/-- Folding addDirtyArea over a list only folds the layer merge over the
layers dirty union. -/
theorem foldl_addDirtyArea_fields (l : List IntRect) :
    ∀ s : GLWebViewState,
      l.foldl addDirtyArea s = { s with
        frameworkLayersInval := l.foldl layerMergeRect s.frameworkLayersInval } := by
  induction l with
  | nil => intro s; simp
  | cons r l ih =>
    intro s
    simp only [List.foldl_cons]
    rw [addDirtyArea_fields, ih]

/-- setViewport never touches the framework dirty union. -/
theorem setViewport_fst_frameworkInval (cfg : GLConfig) (s : GLWebViewState)
    (vp : SkRect) (sc : ℚ) :
    (setViewport cfg s vp sc).1.frameworkInval = s.frameworkInval := by
  by_cases hc : s.viewport = vp ∧ s.zoomFutureScale = sc <;> simp [setViewport, hc]

/-- setViewport never touches the layers dirty union. -/
theorem setViewport_fst_layers (cfg : GLConfig) (s : GLWebViewState)
    (vp : SkRect) (sc : ℚ) :
    (setViewport cfg s vp sc).1.frameworkLayersInval = s.frameworkLayersInval := by
  by_cases hc : s.viewport = vp ∧ s.zoomFutureScale = sc <;> simp [setViewport, hc]

/-- The invalidation computation of drawGL agrees with the amended C1
formula. -/
theorem computeInvalRect_eq_amended (inv : Bool) (base layers rect : IntRect)
    (map : IntRect → FloatRect) :
    computeInvalRect inv base layers rect map =
      amendedC1Inval inv base layers rect map := by
  cases inv <;> by_cases hbase : base.isEmpty <;>
    simp [computeInvalRect, amendedC1Inval, claimC1Inval, hbase]

/-- C1 counterexample: with an inverted-screen-mode transition, a non-empty
base dirty union and an on-screen mapped rectangle, drawGL reports the
full-screen sentinel, while the formula the claim states (sentinel only for
an empty union, otherwise the mapped, inflated and united rectangle) gives
(9,9,22,22) — so the claim as stated is false on this input. -/
theorem drawGL_invalidation_counterexample :
    ((drawGL cfg0 c1State ⟨0, 0, 100, 100⟩ ⟨0, 0, 50, 50⟩ 1 c1Oracle).2.1 =
      DrawOutcome.frame true (some IntRect.zero)) ∧
    (claimC1Inval c1State.frameworkInval IntRect.zero ⟨0, 0, 100, 100⟩
      c1Oracle.rectInInvScreenCoord = ⟨9, 9, 22, 22⟩) ∧
    (some IntRect.zero ≠ some (⟨9, 9, 22, 22⟩ : IntRect)) := by
  refine ⟨?_, ?_, ?_⟩
  · norm_num [drawGL, c1State, sampleState, c1Oracle, sampleOracle, setViewport,
      computeInvalRect, resetLayersDirtyArea, IntRect.isEmpty]
  · norm_num [claimC1Inval, c1State, sampleState, c1Oracle, sampleOracle,
      IntRect.isEmpty, IntRect.zero, IntRect.unite, IntRect.intersects,
      IntRect.ofFloatRect, FloatRect.inflate, truncQ, IntRect.maxX, IntRect.maxY]
  · simp [IntRect.zero]

/-- C1 amended: for a completed frame (content present, plausible scale),
when the draw reports dirtiness or an inverted-screen transition occurred
the out-invalidation is: the sentinel if a transition occurred or the base
dirty union is empty, otherwise the union mapped to screen coordinates,
inflated by 1, united with the layer dirty region, with the sentinel
substituted when the result does not intersect the frame rectangle; the base
union is kept.  When the draw reports no dirtiness and no transition
occurred, the base union is reset and no invalidation is written. -/
theorem drawGL_invalidation_amended (cfg : GLConfig) (s : GLWebViewState)
    (rect : IntRect) (viewport : SkRect) (scale : ℚ) (o : FrameOracle)
    (b : BaseLayerAndroid) (hb : s.currentBaseLayer = some b)
    (hscale : ¬ (scale < 1 / 10 ∨ 10 < scale)) :
    ((o.drawRet || o.invertedScreenSwitch) = true →
      (drawGL cfg s rect viewport scale o).2.1 =
        DrawOutcome.frame true (some (amendedC1Inval o.invertedScreenSwitch
          s.frameworkInval (o.layerDirtyAreas.foldl layerMergeRect IntRect.zero)
          rect o.rectInInvScreenCoord)) ∧
      (drawGL cfg s rect viewport scale o).1.frameworkInval = s.frameworkInval) ∧
    ((o.drawRet || o.invertedScreenSwitch) = false →
      (drawGL cfg s rect viewport scale o).2.1 = DrawOutcome.frame false none ∧
      (drawGL cfg s rect viewport scale o).1.frameworkInval = IntRect.zero) := by
  simp only [drawGL, hb]
  rw [if_neg hscale]
  rw [foldl_addDirtyArea_fields]
  constructor
  · intro hret
    rw [hret]
    simp [setViewport_fst_frameworkInval, setViewport_fst_layers,
      resetLayersDirtyArea, computeInvalRect_eq_amended]
  · intro hret
    rw [hret]
    simp [setViewport_fst_frameworkInval, resetFrameworkInval,
      resetLayersDirtyArea]

/-- Witness for the amended C1 at a concrete frame with an inverted-screen
transition. -/
theorem drawGL_invalidation_amended_witness :
    (drawGL cfg0 c1State ⟨0, 0, 100, 100⟩ ⟨0, 0, 50, 50⟩ 1 c1Oracle).2.1 =
      DrawOutcome.frame true (some (amendedC1Inval c1Oracle.invertedScreenSwitch
        c1State.frameworkInval
        (c1Oracle.layerDirtyAreas.foldl layerMergeRect IntRect.zero)
        ⟨0, 0, 100, 100⟩ c1Oracle.rectInInvScreenCoord)) :=
  ((drawGL_invalidation_amended cfg0 c1State ⟨0, 0, 100, 100⟩ ⟨0, 0, 50, 50⟩ 1
      c1Oracle ⟨1, 1000, 800⟩ rfl (by norm_num)).1 rfl).1
